import Mathlib

/-!
Verification of the BirdListener capture/classification/persistence pipeline.

Shallow embedding of the pipeline core:
  * src/birdcode/detection.py   (`BirdDetection`)
  * src/database.py             (`DatabaseWriter`)
  * src/birdcode/birdlistener.py (`BirdListener._callback`, `analyze`,
    `_process_audio`, `run`)

Machine floats of the Python code are modelled by rationals (the claims only
compare and copy them); wall-clock instants by natural-number seconds; the
sqlite connection and the filesystem by explicit effect fields on the states
returned by the embedded operations.
-/

namespace BirdSpec

/-- Detection record, from `BirdDetection` in src/birdcode/detection.py:
a UTC timestamp string, a (start_sec, end_sec) interval, a species and a
confidence. Plain immutable data. -/
structure BirdDetection where
  timestamp_utc : String
  chunk_interval_sec : ℚ × ℚ
  species : String
  confidence : ℚ
deriving DecidableEq

/-! ## DatabaseWriter (src/database.py) -/

/-- Storage-side state owned by the writer thread: the in-memory batch
`self._buffer`, the list of successfully committed batches (each entry one
`executemany` + `commit` round-trip, in order), a count of logged write
errors, and whether the sqlite connection is open. -/
structure DBState where
  buffer : List BirdDetection
  committed : List (List BirdDetection)
  errorsLogged : Nat
  connOpen : Bool
deriving DecidableEq

/-- Embeds `DatabaseWriter._write_batch`. If the buffer is empty it returns at
once. Otherwise it attempts the single `executemany` + `commit`; `commitOk`
models whether sqlite succeeds. On success the batch is appended to the
committed log and the buffer cleared (the clear is inside the `try`, after the
commit); on `sqlite3.Error` the error is logged and the buffer left as it was. -/
def write_batch (commitOk : Bool) (s : DBState) : DBState :=
  if s.buffer = [] then s
  else if commitOk then
    ⟨[], s.committed ++ [s.buffer], s.errorsLogged, s.connOpen⟩
  else
    ⟨s.buffer, s.committed, s.errorsLogged + 1, s.connOpen⟩

/-- One iteration of the `while self._running` loop in
`DatabaseWriter._run_writer_loop`: either `write_queue.get(timeout=1)` returns
a detection, or it raises `queue.Empty` after the timeout. `t` is
`datetime.now()` observed in that iteration, in whole seconds since the loop
started; `commitOk` is whether a commit attempted in this iteration would
succeed. -/
inductive QEvent where
  | item (d : BirdDetection) (t : Nat) (commitOk : Bool)
  | idle (t : Nat) (commitOk : Bool)
deriving DecidableEq

/-- Loop-local state of `_run_writer_loop`: the storage state plus
`last_flush_time`. -/
structure LoopState where
  db : DBState
  lastFlush : Nat
deriving DecidableEq

/-- Embeds the body of the `while self._running` loop of `_run_writer_loop`.
On a got item: append to the buffer, then flush when
`len(self._buffer) >= self.batch_size`, resetting `last_flush_time`. On
`queue.Empty`: flush when `flush_interval` seconds or more have passed since
the last flush, resetting `last_flush_time`. -/
def loopStep (batch_size flush_interval : Nat) (s : LoopState) : QEvent → LoopState
  | .item d t ok =>
      let db : DBState := ⟨s.db.buffer ++ [d], s.db.committed, s.db.errorsLogged, s.db.connOpen⟩
      if batch_size ≤ db.buffer.length then
        ⟨write_batch ok db, t⟩
      else
        ⟨db, s.lastFlush⟩
  | .idle t ok =>
      if flush_interval ≤ t - s.lastFlush then
        ⟨write_batch ok s.db, t⟩
      else s

/-- Fresh storage state right after `_initialize_db` succeeds: connection
open, empty buffer, nothing committed. -/
def initialDB : DBState := ⟨[], [], 0, true⟩

/-- Embeds `_run_writer_loop` after a successful `_initialize_db`: fold the
loop body over the iterations executed while `_running` is True, then perform
the final `_write_batch` that follows the loop and close the connection. -/
def run_writer_loop (batch_size flush_interval startTime : Nat)
    (events : List QEvent) (finalCommitOk : Bool) : DBState :=
  let s := events.foldl (loopStep batch_size flush_interval) ⟨initialDB, startTime⟩
  let db := write_batch finalCommitOk s.db
  ⟨db.buffer, db.committed, db.errorsLogged, false⟩

/-- Embeds the shutdown path `stop()` + `_run_writer_loop` for a writer whose
queue holds `queued` detections when `stop()` clears `_running`. The `while`
condition is re-checked once per iteration, so the loop completes some number
`k` of further `get` iterations (scheduling-dependent) and then exits the
moment it observes the cleared flag; nothing after the loop reads the queue
again, so the first `k` queued detections are taken and the rest stay on the
queue. All gets happen promptly (no idle flush) and every commit succeeds.
Returns the final storage state and the detections left on the queue. -/
def run_until_stop (batch_size : Nat) (queued : List BirdDetection) (k : Nat) :
    DBState × List BirdDetection :=
  (run_writer_loop batch_size 30 0
      ((queued.take k).map (fun d => QEvent.item d 0 true)) true,
   queued.drop k)

/-! ## Ring buffer accumulator (`BirdListener._callback`) -/

/-- Numpy basic slice assignment `l[lo:hi] = vals` on a 1-d float array:
the slice bounds are clamped to the array length, and the assignment raises
`ValueError` (here `none`) unless `vals` has exactly the clamped slice's
length. -/
def sliceAssign (l : List ℚ) (lo hi : Nat) (vals : List ℚ) : Option (List ℚ) :=
  let lo' := min lo l.length
  let hi' := max lo' (min hi l.length)
  if vals.length = hi' - lo' then
    some (l.take lo' ++ vals ++ l.drop hi')
  else none

/-- Accumulator state of `BirdListener`: the pre-allocated
`self.audio_buffer = np.zeros(self.chunk_samples)` and the write cursor
`self._buffer_pos` (src/birdcode/birdlistener.py `__init__`). -/
structure AccState where
  audio_buffer : List ℚ
  buffer_pos : Nat
deriving DecidableEq

/-- Result of one `_callback` invocation: the chunks handed to
`_save_chunk_to_queue`, in order, and the state after the call; `none` means a
slice assignment raised `ValueError` inside the callback (chunks already
queued before the raise stand). -/
structure CallbackResult where
  emitted : List (List ℚ)
  final : Option AccState
deriving DecidableEq

/-- Embeds `BirdListener._callback` (src/birdcode/birdlistener.py), with
`samples = indata[:, 0]` already extracted. When the incoming frame fits
strictly below `chunk_samples`, it is copied at the cursor. Otherwise the
remaining space is filled with the frame's first `fit` samples, a copy of the
full buffer is queued as one chunk, any leftover samples are copied to the
front of the buffer, and the cursor becomes the leftover count. The leftover
copy `audio_buffer[:remainder] = samples[fit:]` is a plain slice assignment:
it raises when the leftover exceeds the buffer, so the callback emits at most
one chunk per call. The source's locals are inlined here:
`n = len(samples)`, `end = _buffer_pos + n`, `fit = chunk_samples -
_buffer_pos`, `remainder = n - fit`. -/
def callback (chunk_samples : Nat) (s : AccState) (samples : List ℚ) : CallbackResult :=
  if s.buffer_pos + samples.length < chunk_samples then
    match sliceAssign s.audio_buffer s.buffer_pos (s.buffer_pos + samples.length) samples with
    | some buf => ⟨[], some ⟨buf, s.buffer_pos + samples.length⟩⟩
    | none => ⟨[], none⟩
  else
    match sliceAssign s.audio_buffer s.buffer_pos s.audio_buffer.length
        (samples.take (chunk_samples - s.buffer_pos)) with
    | none => ⟨[], none⟩
    | some buf1 =>
      if 0 < samples.length - (chunk_samples - s.buffer_pos) then
        match sliceAssign buf1 0 (samples.length - (chunk_samples - s.buffer_pos))
            (samples.drop (chunk_samples - s.buffer_pos)) with
        | some buf2 =>
            ⟨[buf1], some ⟨buf2, samples.length - (chunk_samples - s.buffer_pos)⟩⟩
        | none => ⟨[buf1], none⟩
      else ⟨[buf1], some ⟨buf1, 0⟩⟩

/-! ## Chunk dispatcher (`BirdListener.analyze`, `_process_audio`) -/

/-- One structured prediction row as `analyze` reads it from the BirdNET
result array, with the two time fields already taken through
`_parse_time_to_seconds` (their numeric value in seconds). -/
structure Prediction where
  species_name : String
  confidence : ℚ
  start_time : ℚ
  end_time : ℚ
deriving DecidableEq

/-- Outcome of the `self._model.predict(...)` call in `analyze`: either the
rows of the structured array, or an exception from the classification
adapter. -/
inductive PredictOutcome where
  | ok (rows : List Prediction)
  | raised
deriving DecidableEq

/-- Observable effect of one `analyze(audio_path)` call: how many times
`os.remove(audio_path)` ran on the chunk's transient file, and the detections
put on `_db_write_queue`, in row order. -/
structure AnalyzeResult where
  removed : Nat
  queued : List BirdDetection
deriving DecidableEq

/-- Embeds `BirdListener.analyze`. If `predict` raises: the `except` block
removes the temp file and returns, producing no detection (the exception does
not escape `analyze`). Otherwise each row whose confidence strictly exceeds
`detection_threshold` becomes a `BirdDetection` (timestamp = current UTC time
`now_utc`, interval = the row's parsed start/end seconds) and is queued, and
the temp file is removed once at the end. -/
def analyze (detection_threshold : ℚ) (now_utc : String) (predicted : PredictOutcome) :
    AnalyzeResult :=
  match predicted with
  | .raised => ⟨1, []⟩
  | .ok rows =>
      ⟨1, rows.filterMap (fun r =>
        if detection_threshold < r.confidence then
          some ⟨now_utc, (r.start_time, r.end_time), r.species_name, r.confidence⟩
        else none)⟩

/-- Embeds the worker loop `BirdListener._process_audio` over the staged
chunks it dequeues while running: each iteration calls `analyze` on the next
chunk and continues with the rest (`analyze` returns normally on adapter
errors, so no chunk stops the loop). Returns the per-chunk effects in
order. -/
def process_audio (detection_threshold : ℚ) (now_utc : String) :
    List PredictOutcome → List AnalyzeResult
  | [] => []
  | c :: rest => analyze detection_threshold now_utc c ::
      process_audio detection_threshold now_utc rest

/-! ## Lifecycle (`DatabaseWriter.__init__`, `start`, `BirdListener.run`) -/

/-- The exception `_initialize_db` re-raises when sqlite cannot open the
database file or create the table. -/
inductive InitError where
  | sqliteError
deriving DecidableEq

/-- Embeds the full writer thread body `_run_writer_loop`, whose first
statement is `self._initialize_db()`. `dbInitOk` is whether sqlite can open
`db_file`; on failure `_initialize_db` logs critical and re-raises, so the
exception escapes the thread body (`Except.error`) before any loop iteration,
flush, or connection close.  -/
def run_writer_thread (dbInitOk : Bool) (batch_size flush_interval startTime : Nat)
    (events : List QEvent) (finalCommitOk : Bool) : Except InitError DBState :=
  if dbInitOk then
    Except.ok (run_writer_loop batch_size flush_interval startTime events finalCommitOk)
  else
    Except.error InitError.sqliteError

/-- Constructed `DatabaseWriter` object: the fields assigned by
`DatabaseWriter.__init__` in src/database.py. The connection and cursor slots
hold `none` until `_initialize_db` populates them. -/
structure DatabaseWriter where
  db_file : String
  batch_size : Nat
  flush_interval : Nat
  running : Bool
  conn : Option Unit
  cursor : Option Unit
  buffer : List BirdDetection
deriving DecidableEq

/-- Embeds `DatabaseWriter.__init__(db_file, write_queue, batch_size,
flush_interval)`: plain attribute assignments producing the object, a total
function of the arguments with no storage or filesystem effect — it never
touches `db_file`. -/
def DatabaseWriter.init (db_file : String) (batch_size flush_interval : Nat) :
    DatabaseWriter :=
  ⟨db_file, batch_size, flush_interval, false, none, none, []⟩

/-- Caller-visible outcome of `BirdListener.run` (src/birdcode/birdlistener.py)
together with what happened on the spawned writer thread. `run` itself has no
try/except: it returns normally unless a statement in its own body raises. -/
structure RunOutcome where
  raisedToCaller : Bool
  writerThread : Except InitError DBState
  audioThreadStarted : Bool
  streamStarted : Bool

/-- Embeds `BirdListener.run` followed by the writer thread it spawns.
`run` sets `_running`, calls `self._db_writer.start()` — which only spawns a
daemon thread; `threading.Thread.start` returns without surfacing any
exception the target later raises on that thread — then starts the audio
processing thread, then calls `listen()`, which wraps the stream start in its
own try/except and logs rather than re-raising (`streamOk` is whether
`sd.InputStream(...).start()` succeeds). No statement in `run`'s body can
raise, so the caller always gets a normal return, whatever happens to
`_initialize_db` on the writer thread. -/
def BirdListener.run (dbInitOk streamOk : Bool) (batch_size flush_interval startTime : Nat)
    (events : List QEvent) (finalCommitOk : Bool) : RunOutcome :=
  ⟨false,
   run_writer_thread dbInitOk batch_size flush_interval startTime events finalCommitOk,
   true,
   streamOk⟩

/-! ## Shared helper lemmas -/

/-- A flush attempt on an empty buffer is the early-return no-op of
`_write_batch`. -/
theorem write_batch_empty (ok : Bool) (s : DBState) (h : s.buffer = []) :
    write_batch ok s = s := by
  simp [write_batch, h]

/-- Checked slice assignment with in-range bounds and a matching value list
succeeds and preserves the array length. -/
theorem sliceAssign_some_of_le (l : List ℚ) (lo hi : Nat) (vals : List ℚ)
    (hlo : lo ≤ hi) (hhi : hi ≤ l.length) (hv : vals.length = hi - lo) :
    ∃ r, sliceAssign l lo hi vals = some r ∧ r.length = l.length := by
  have hlo' : min lo l.length = lo := min_eq_left (hlo.trans hhi)
  have hhi' : min hi l.length = hi := min_eq_left hhi
  refine ⟨l.take lo ++ vals ++ l.drop hi, ?_, ?_⟩
  · simp [sliceAssign, hlo', hhi', max_eq_right hlo, hv]
  · simp only [List.length_append, List.length_take, List.length_drop, hlo', hv]
    omega

/-! ## Claims -/

/-- C1. The claim states that on stop every Detection already placed on the
write queue is drained into the batch and committed before the connection
closes, so that no Detection is lost under non-failing storage. The code
violates this: `stop()` clears `_running` and `_run_writer_loop` exits at the
next check of the `while` condition without reading the queue again, so
detections still on the queue when the flag is observed are never buffered,
never flushed, and remain stranded after the connection closes — here two
enqueued detections, a stop observed before the next `get`, every attempted
commit succeeding, and yet the committed log is empty. -/
theorem stop_loses_queued_detections :
    run_until_stop 100
        [⟨"t1", (0, 3), "Sparrow", mkRat 9 10⟩, ⟨"t2", (3, 6), "Robin", mkRat 4 5⟩] 0
      = (⟨[], [], 0, false⟩,
         [⟨"t1", (0, 3), "Sparrow", mkRat 9 10⟩, ⟨"t2", (3, 6), "Robin", mkRat 4 5⟩]) := by
  decide

/-- C2. The claim states that a single frame of length `5 × chunk_samples`
(no overlap) yields exactly 5 chunks in one call, chunk emission being a loop
over the incoming frame. The code violates this: `_callback` handles the
buffer-full case with a single `if`, queues exactly one chunk, and the
leftover copy `audio_buffer[:remainder] = samples[fit:]` then raises a
broadcast `ValueError` because the leftover (4 × chunk_samples) exceeds the
buffer — with `chunk_samples = 4`, a 20-sample frame emits one chunk and the
callback aborts instead of emitting five. -/
theorem callback_giant_frame_emits_one_chunk_then_raises :
    (callback 4 ⟨List.replicate 4 0, 0⟩ (List.replicate 20 0)).emitted.length = 1
    ∧ (callback 4 ⟨List.replicate 4 0, 0⟩ (List.replicate 20 0)).final = none := by
  decide

/-- C3. The Dispatcher keeps exactly the Predictions whose confidence
strictly exceeds `detection_threshold`: the chunk with ("Sparrow", 0.9) and
("Robin", 0.3) at threshold 0.5 queues exactly one Detection, for Sparrow
with confidence 0.9 and the row's interval; and a chunk none of whose
Predictions exceed the threshold queues zero Detections. -/
theorem analyze_filter_strict (now_utc : String) (th : ℚ) (rows : List Prediction)
    (h : ∀ r ∈ rows, r.confidence ≤ th) :
    (analyze (mkRat 1 2) now_utc
        (.ok [⟨"Sparrow", mkRat 9 10, 0, 3⟩, ⟨"Robin", mkRat 3 10, 3, 6⟩])).queued
      = [⟨now_utc, (0, 3), "Sparrow", mkRat 9 10⟩]
    ∧ (analyze th now_utc (.ok rows)).queued = [] := by
  constructor
  · have h1 : mkRat 1 2 < mkRat 9 10 := by decide
    have h2 : ¬ mkRat 1 2 < mkRat 3 10 := by decide
    simp [analyze, List.filterMap_cons, h1, h2]
  · simp only [analyze, List.filterMap_eq_nil_iff]
    intro r hr
    rw [if_neg (not_lt.mpr (h r hr))]

/-- Witness for C3 at threshold 0.5 on the Sparrow/Robin chunk and at the
default threshold 0.7 on a chunk whose only Prediction sits below it. -/
theorem analyze_filter_strict_witness :
    (analyze (mkRat 1 2) "w"
        (.ok [⟨"Sparrow", mkRat 9 10, 0, 3⟩, ⟨"Robin", mkRat 3 10, 3, 6⟩])).queued
      = [⟨"w", (0, 3), "Sparrow", mkRat 9 10⟩]
    ∧ (analyze (mkRat 7 10) "w" (.ok [⟨"Robin", mkRat 3 10, 3, 6⟩])).queued = [] :=
  analyze_filter_strict "w" (mkRat 7 10) [⟨"Robin", mkRat 3 10, 3, 6⟩] (by decide)

/-- Every path through `analyze` removes the chunk's transient file exactly
once. -/
theorem analyze_removed_once (th : ℚ) (now_utc : String) (c : PredictOutcome) :
    (analyze th now_utc c).removed = 1 := by
  cases c <;> rfl

/-- C4. For every staged chunk the worker processes, the transient file is
deleted exactly once — on the success path (with or without detections) and
on the adapter-error path alike; an adapter error for one chunk yields no
Detection, and the worker loop still processes every subsequent chunk. -/
theorem process_audio_cleanup_once (th : ℚ) (now_utc : String)
    (chunks rest : List PredictOutcome) :
    (∀ res ∈ process_audio th now_utc chunks, res.removed = 1)
    ∧ (process_audio th now_utc chunks).length = chunks.length
    ∧ analyze th now_utc .raised = ⟨1, []⟩
    ∧ process_audio th now_utc (.raised :: rest)
        = ⟨1, []⟩ :: process_audio th now_utc rest := by
  refine ⟨?_, ?_, rfl, rfl⟩
  · induction chunks with
    | nil => simp [process_audio]
    | cons c cs ih =>
        intro res hres
        rcases List.mem_cons.mp hres with hres | hres
        · rw [hres]; exact analyze_removed_once th now_utc c
        · exact ih res hres
  · induction chunks with
    | nil => rfl
    | cons c cs ih => simpa [process_audio] using ih

/-- Witness for C4 on a concrete queue: an erroring chunk followed by a
successful one. -/
theorem process_audio_cleanup_once_witness :
    (∀ res ∈ process_audio (mkRat 7 10) "w"
        [PredictOutcome.raised, .ok [⟨"Sparrow", mkRat 9 10, 0, 3⟩]], res.removed = 1)
    ∧ (process_audio (mkRat 7 10) "w"
        [PredictOutcome.raised, .ok [⟨"Sparrow", mkRat 9 10, 0, 3⟩]]).length = 2
    ∧ analyze (mkRat 7 10) "w" .raised = ⟨1, []⟩
    ∧ process_audio (mkRat 7 10) "w"
        (.raised :: [.ok [⟨"Sparrow", mkRat 9 10, 0, 3⟩]])
        = ⟨1, []⟩ :: process_audio (mkRat 7 10) "w" [.ok [⟨"Sparrow", mkRat 9 10, 0, 3⟩]] :=
  process_audio_cleanup_once (mkRat 7 10) "w"
    [PredictOutcome.raised, .ok [⟨"Sparrow", mkRat 9 10, 0, 3⟩]]
    [.ok [⟨"Sparrow", mkRat 9 10, 0, 3⟩]]

/-- C5. With `batch_size = 2`, pushing two Detections in sequence produces
exactly one commit containing both, in order, as a single whole-batch
round-trip — and after only the first push nothing has been committed, so
there is never a partial commit of one. -/
theorem batch_size_triggers_single_full_commit (d1 d2 : BirdDetection)
    (t1 t2 startTime fi : Nat) :
    ((List.foldl (loopStep 2 fi) ⟨initialDB, startTime⟩
        [QEvent.item d1 t1 true, QEvent.item d2 t2 true]).db.committed = [[d1, d2]]
      ∧ (List.foldl (loopStep 2 fi) ⟨initialDB, startTime⟩
        [QEvent.item d1 t1 true, QEvent.item d2 t2 true]).db.buffer = [])
    ∧ (List.foldl (loopStep 2 fi) ⟨initialDB, startTime⟩
        [QEvent.item d1 t1 true]).db.committed = [] := by
  refine ⟨⟨?_, ?_⟩, ?_⟩ <;> simp [List.foldl, loopStep, write_batch, initialDB]

/-- C6. If committing a batch fails, `_write_batch` logs the error and keeps
the whole batch unchanged in the buffer for the next attempt, committing
nothing; the buffer is cleared only by a successful commit, which appends the
entire batch to the store. -/
theorem write_batch_failure_retains (s : DBState) (h : s.buffer ≠ []) :
    (write_batch false s).buffer = s.buffer
    ∧ (write_batch false s).committed = s.committed
    ∧ (write_batch false s).errorsLogged = s.errorsLogged + 1
    ∧ (write_batch true s).buffer = []
    ∧ (write_batch true s).committed = s.committed ++ [s.buffer] := by
  simp [write_batch, h]

/-- Witness for C6 on a one-detection buffer. -/
theorem write_batch_failure_retains_witness :
    (write_batch false ⟨[⟨"t1", (0, 3), "Sparrow", mkRat 9 10⟩], [], 0, true⟩).buffer
        = [⟨"t1", (0, 3), "Sparrow", mkRat 9 10⟩]
    ∧ (write_batch false ⟨[⟨"t1", (0, 3), "Sparrow", mkRat 9 10⟩], [], 0, true⟩).committed = []
    ∧ (write_batch false ⟨[⟨"t1", (0, 3), "Sparrow", mkRat 9 10⟩], [], 0, true⟩).errorsLogged = 0 + 1
    ∧ (write_batch true ⟨[⟨"t1", (0, 3), "Sparrow", mkRat 9 10⟩], [], 0, true⟩).buffer = []
    ∧ (write_batch true ⟨[⟨"t1", (0, 3), "Sparrow", mkRat 9 10⟩], [], 0, true⟩).committed
        = [] ++ [[⟨"t1", (0, 3), "Sparrow", mkRat 9 10⟩]] :=
  write_batch_failure_retains ⟨[⟨"t1", (0, 3), "Sparrow", mkRat 9 10⟩], [], 0, true⟩ (by decide)

/-- Idle iterations starting from an empty buffer never commit anything: any
flush they attempt is the empty-buffer no-op. -/
theorem foldl_idle_keeps_committed (bs fi : Nat) (rest : List QEvent) :
    ∀ s : LoopState, (∀ e ∈ rest, ∃ t ok, e = QEvent.idle t ok) → s.db.buffer = [] →
      (List.foldl (loopStep bs fi) s rest).db.committed = s.db.committed
      ∧ (List.foldl (loopStep bs fi) s rest).db.buffer = [] := by
  induction rest with
  | nil => exact fun s _ hbuf => ⟨rfl, hbuf⟩
  | cons e es ih =>
      intro s hrest hbuf
      obtain ⟨t, ok, rfl⟩ := hrest e (List.mem_cons_self e es)
      have hstep : (loopStep bs fi s (QEvent.idle t ok)).db = s.db := by
        simp only [loopStep]
        split
        · rw [write_batch_empty ok s.db hbuf]
        · rfl
      have := ih (loopStep bs fi s (QEvent.idle t ok))
        (fun e he => hrest e (List.mem_cons_of_mem _ he)) (hstep ▸ hbuf)
      rw [List.foldl_cons]
      exact ⟨by rw [this.1, hstep], this.2⟩

/-- C7. With `flush_interval = 2` and `batch_size = 100`, pushing one
Detection and then going idle for 2 or more seconds triggers exactly one
commit, of exactly that single Detection — and however many further idle
iterations follow, nothing else is ever committed. -/
theorem idle_flush_commits_once (d : BirdDetection) (t : Nat) (rest : List QEvent)
    (ht : 2 ≤ t) (hrest : ∀ e ∈ rest, ∃ t2 ok, e = QEvent.idle t2 ok) :
    (List.foldl (loopStep 100 2) ⟨initialDB, 0⟩
        (QEvent.item d 0 true :: QEvent.idle t true :: rest)).db.committed = [[d]]
    ∧ (List.foldl (loopStep 100 2) ⟨initialDB, 0⟩
        (QEvent.item d 0 true :: QEvent.idle t true :: rest)).db.buffer = [] := by
  have h1 : loopStep 100 2 ⟨initialDB, 0⟩ (QEvent.item d 0 true)
      = ⟨⟨[d], [], 0, true⟩, 0⟩ := by
    simp [loopStep, initialDB]
  have h2 : loopStep 100 2 ⟨⟨[d], [], 0, true⟩, 0⟩ (QEvent.idle t true)
      = ⟨⟨[], [[d]], 0, true⟩, t⟩ := by
    simp [loopStep, write_batch, ht]
  rw [List.foldl_cons, h1, List.foldl_cons, h2]
  exact foldl_idle_keeps_committed 100 2 rest ⟨⟨[], [[d]], 0, true⟩, t⟩ hrest rfl

/-- Witness for C7: one Detection pushed at second 0, the idle timeout
observed at second 2, no further iterations. -/
theorem idle_flush_commits_once_witness :
    (List.foldl (loopStep 100 2) ⟨initialDB, 0⟩
        (QEvent.item ⟨"t1", (0, 3), "Sparrow", mkRat 9 10⟩ 0 true
          :: QEvent.idle 2 true :: [])).db.committed
      = [[⟨"t1", (0, 3), "Sparrow", mkRat 9 10⟩]]
    ∧ (List.foldl (loopStep 100 2) ⟨initialDB, 0⟩
        (QEvent.item ⟨"t1", (0, 3), "Sparrow", mkRat 9 10⟩ 0 true
          :: QEvent.idle 2 true :: [])).db.buffer = [] :=
  idle_flush_commits_once ⟨"t1", (0, 3), "Sparrow", mkRat 9 10⟩ 2 []
    (by decide) (by simp)

/-- C8. The claim states that a failure to open the persistent store at
startup is propagated to the caller of `run` and the system does not start
serving capture. The code violates this: `_initialize_db` raises on the
spawned daemon writer thread, `threading.Thread.start` returns normally, and
`run` goes on to start the audio processing thread and the input stream — so
with an unopenable database file the caller sees a normal return, the stream
starts, and the only trace of the failure is the exception that died on the
writer thread. -/
theorem run_swallows_store_init_failure :
    (BirdListener.run false true 100 30 0 [] true).raisedToCaller = false
    ∧ (BirdListener.run false true 100 30 0 [] true).streamStarted = true
    ∧ (BirdListener.run false true 100 30 0 [] true).writerThread
        = Except.error InitError.sqliteError :=
  ⟨rfl, rfl, rfl⟩

/-- C9. The capture callback preserves the cursor invariant
`0 ≤ _buffer_pos < chunk_samples`: for any frame of at most `chunk_samples`
samples, if the buffer has length `chunk_samples` and the invariant holds
before the call, then every slice assignment the callback performs is in
range (no exception is raised), the buffer keeps its length, and the
invariant holds after the call. -/
theorem callback_preserves_cursor_invariant (cs : Nat) (s : AccState) (samples : List ℚ)
    (hbuf : s.audio_buffer.length = cs)
    (hpos : s.buffer_pos < cs)
    (hn : samples.length ≤ cs) :
    ∃ s2, (callback cs s samples).final = some s2
      ∧ s2.audio_buffer.length = cs ∧ s2.buffer_pos < cs := by
  unfold callback
  by_cases hcase : s.buffer_pos + samples.length < cs
  · rw [if_pos hcase]
    obtain ⟨r, hr, hlen⟩ := sliceAssign_some_of_le s.audio_buffer s.buffer_pos
      (s.buffer_pos + samples.length) samples (by omega) (by omega) (by omega)
    rw [hr]
    exact ⟨⟨r, s.buffer_pos + samples.length⟩, rfl, hlen.trans hbuf, hcase⟩
  · rw [if_neg hcase]
    obtain ⟨r1, hr1, hlen1⟩ := sliceAssign_some_of_le s.audio_buffer s.buffer_pos
      s.audio_buffer.length (samples.take (cs - s.buffer_pos))
      (by omega) (le_refl _) (by simp [List.length_take]; omega)
    rw [hr1]
    dsimp only
    by_cases hrem : 0 < samples.length - (cs - s.buffer_pos)
    · rw [if_pos hrem]
      obtain ⟨r2, hr2, hlen2⟩ := sliceAssign_some_of_le r1 0
        (samples.length - (cs - s.buffer_pos)) (samples.drop (cs - s.buffer_pos))
        (by omega) (by rw [hlen1, hbuf]; omega) (by simp [List.length_drop])
      rw [hr2]
      exact ⟨⟨r2, samples.length - (cs - s.buffer_pos)⟩, rfl,
        hlen2.trans (hlen1.trans hbuf),
        show samples.length - (cs - s.buffer_pos) < cs by omega⟩
    · rw [if_neg hrem]
      exact ⟨⟨r1, 0⟩, rfl, hlen1.trans hbuf, show 0 < cs by omega⟩

/-- Witness for C9: chunk size 4, cursor at 2, a 3-sample frame. -/
theorem callback_preserves_cursor_invariant_witness :
    ∃ s2, (callback 4 ⟨List.replicate 4 0, 2⟩ (List.replicate 3 1)).final = some s2
      ∧ s2.audio_buffer.length = 4 ∧ s2.buffer_pos < 4 :=
  callback_preserves_cursor_invariant 4 ⟨List.replicate 4 0, 2⟩ (List.replicate 3 1)
    (by simp) (by decide) (by simp)

/-- C10. Constructing a `DatabaseWriter` is pure field assignment: the
connection and cursor slots are `None`, the buffer empty, the run flag down,
for every database path — the constructor is a total function and never
touches the file. The database is opened only by the writer thread body,
whose first statement is `_initialize_db`: an unopenable `db_file` makes that
thread body raise (before any connection state exists), while construction
has already succeeded; a successful open yields the loop's starting state
with the connection open. -/
theorem init_performs_no_io (f : String) (b fi : Nat) :
    (DatabaseWriter.init f b fi).conn = none
    ∧ (DatabaseWriter.init f b fi).cursor = none
    ∧ (DatabaseWriter.init f b fi).buffer = []
    ∧ (DatabaseWriter.init f b fi).running = false
    ∧ (∀ startTime events finalOk, run_writer_thread false b fi startTime events finalOk
        = Except.error InitError.sqliteError)
    ∧ initialDB.connOpen = true :=
  ⟨rfl, rfl, rfl, rfl, fun _ _ _ => rfl, rfl⟩

end BirdSpec
